import Mathlib

/-!
Verification development for the Impetus-Lock intervention core.

This file gives a shallow embedding of the Python sources under
`src/server/server/` (domain models, anchor math, the intervention
service, the idempotency cache, the provider registry and the provider
adapters' exception translation) and proves the specification claims
about them.

Conventions of the embedding:
* Python `int` is modelled as `Int`; `time.time()` readings and
  temperatures (Python floats used only as exact clock values and
  configuration constants) are modelled as `ℚ`.
* Pydantic model construction is modelled as an explicit validation
  function returning `Except SvcError _`; plain attribute assignment on
  an already-constructed model (which pydantic does not re-validate) is
  modelled as a record update.
* `uuid.uuid4()` is modelled as a supply of distinct tokens indexed by a
  call counter that each operation threads through.
* Exceptions are modelled by the `Except` monad with the `SvcError`
  inductive mirroring the exception classes that actually occur.
-/

namespace ImpetusCore

/-- Agent mode, Python `Literal["muse", "loki"]` (intervention.py line 71). -/
inductive Mode
  | muse
  | loki
deriving DecidableEq, Repr

/-- Intervention action, Python `Literal["provoke", "delete", "rewrite"]`
(intervention.py line 129). -/
inductive Action
  | provoke
  | delete
  | rewrite
deriving DecidableEq, Repr

/-- Anchor data (anchor.py): tagged union of `AnchorPos`, `AnchorRange`,
`AnchorLockId`.  This is the raw payload; the pydantic field constraints are
modelled by the `anchorPosValidate` / `anchorRangeValidate` smart
constructors below.  The Python fields `from` / `to` are spelled `from_` /
`to_` because both are reserved words in Lean. -/
inductive Anchor
  | pos (from_ : Int)
  | range (from_ : Int) (to_ : Int)
  | lockRef (ref_lock_id : String)
deriving DecidableEq, Repr

/-- `anchor.type == "range"` check used by `_validate_payload` and the
service's rewrite branch. -/
def Anchor.isRange : Anchor → Bool
  | .range _ _ => true
  | _ => false

/-- The exception classes observable at the boundaries we model. -/
inductive SvcError
  | validationError (msg : String)
  | valueError (msg : String)
  | runtimeError (msg : String)
  | providerError (code : String) (message : String) (status_code : Int)
      (provider : Option String)
deriving DecidableEq, Repr

deriving instance DecidableEq for Except

/-- `AnchorPos.model_validate` / `AnchorPos(...)`: field `from` has `ge=0`
(anchor.py line 37). -/
def anchorPosValidate (f : Int) : Except SvcError Anchor :=
  if 0 ≤ f then .ok (.pos f)
  else .error (.validationError "pos anchor requires from ge 0")

/-- `AnchorRange.model_validate` / `AnchorRange(...)`: field `from` has
`ge=0` and field `to` has `gt=0` (anchor.py lines 63-64).  Note that the
code does **not** validate `to > from` even though the field description
text says "must be > from". -/
def anchorRangeValidate (f t : Int) : Except SvcError Anchor :=
  if 0 ≤ f ∧ 0 < t then .ok (.range f t)
  else .error (.validationError "range anchor requires from ge 0 and to gt 0")

/-- `ClientMeta` (intervention.py lines 19-39). -/
structure ClientMeta where
  doc_version : Int
  selection_from : Int
  selection_to : Int
deriving DecidableEq, Repr

/-- The pydantic field constraints of `ClientMeta`: all three fields `ge=0`. -/
def ClientMeta.Valid (m : ClientMeta) : Prop :=
  0 ≤ m.doc_version ∧ 0 ≤ m.selection_from ∧ 0 ≤ m.selection_to

/-- `InterventionRequest` (intervention.py lines 42-74). -/
structure InterventionRequest where
  context : String
  mode : Mode
  client_meta : ClientMeta

/-- The pydantic constraints of `InterventionRequest`: context has
`min_length=1, max_length=2000` and the metadata fields are nonnegative. -/
def InterventionRequest.Valid (r : InterventionRequest) : Prop :=
  1 ≤ r.context.length ∧ r.context.length ≤ 2000 ∧ r.client_meta.Valid

/-- An `InterventionResponse` object's fields (intervention.py lines 77-154).
`issued_at` (a timestamp no claim mentions) is omitted.  This structure is the
raw record; pydantic construction-time validation is `interventionResponseValidate`. -/
structure InterventionResponse where
  action : Action
  content : Option String
  lock_id : Option String
  anchor : Anchor
  action_id : String
  source : Mode
deriving DecidableEq, Repr

/-- Python whitespace test for the ASCII characters `str.isspace` /
`str.strip` treat as whitespace (the modelled character set). -/
def pyIsSpace (c : Char) : Bool :=
  c = ' ' || c = '\t' || c = '\n' || c = '\x0d' || c = '\x0b' || c = '\x0c'

/-- Python truthiness of `Optional[str]`: `None` and the empty string are
falsy (used by `not response.lock_id` style checks). -/
def optStrFalsy : Option String → Bool
  | none => true
  | some s => s = ""

/-- Python `s.strip()` is falsy exactly when every character is whitespace
(including the empty string). -/
def strBlank (s : String) : Bool := s.data.all pyIsSpace

/-- Python `s.strip()`: drop leading and trailing whitespace. -/
def pyStrip (s : String) : String :=
  String.mk (((s.data.dropWhile pyIsSpace).reverse.dropWhile pyIsSpace).reverse)

/-- Python `s.lower()` (ASCII case folding, the only case relevant to the
provider-name strings involved). -/
def pyLower (s : String) : String :=
  String.mk (s.data.map Char.toLower)

/-- Pydantic construction of `InterventionResponse`: the per-field
constraints (`content`, `lock_id`, `action_id` all `min_length=1`) followed by
the `_validate_payload` model validator (intervention.py lines 156-174),
which also forces `content = lock_id = None` for delete actions. -/
def interventionResponseValidate (action : Action) (content lock_id : Option String)
    (anchor : Anchor) (action_id : String) (source : Mode) :
    Except SvcError InterventionResponse :=
  if content = some "" then .error (.validationError "content min_length 1")
  else if lock_id = some "" then .error (.validationError "lock_id min_length 1")
  else if action_id = "" then .error (.validationError "action_id min_length 1")
  else if (action = .provoke ∨ action = .rewrite) ∧
      (optStrFalsy content || strBlank (content.getD "")) then
    .error (.valueError "content is required for provoke/rewrite actions")
  else if (action = .provoke ∨ action = .rewrite) ∧ optStrFalsy lock_id then
    .error (.valueError "lock_id is required for provoke/rewrite actions")
  else
    let content := if action = .delete then none else content
    let lock_id := if action = .delete then none else lock_id
    if action = .rewrite ∧ ¬ anchor.isRange then
      .error (.valueError "rewrite action requires range anchor")
    else if action = .delete ∧ ¬ anchor.isRange then
      .error (.valueError "delete action requires range anchor")
    else .ok ⟨action, content, lock_id, anchor, action_id, source⟩

/-- The action-field invariant stated by the spec for `InterventionResponse`:
provoke/rewrite carry non-blank content and a non-empty lock id, delete
carries neither, and rewrite/delete carry a range anchor. -/
def InterventionResponse.PayloadInvariant (r : InterventionResponse) : Prop :=
  ((r.action = .provoke ∨ r.action = .rewrite) →
      (∃ c, r.content = some c ∧ strBlank c = false) ∧
      (∃ l, r.lock_id = some l ∧ l ≠ "")) ∧
  (r.action = .delete → r.content = none ∧ r.lock_id = none) ∧
  ((r.action = .rewrite ∨ r.action = .delete) → r.anchor.isRange = true)

/-! ## Anchor math (`domain/text_window.py`) -/

/-- `SENTENCE_BOUNDARIES` (text_window.py line 16). -/
def SENTENCE_BOUNDARIES : List Char := ['。', '！', '？', '!', '?', '.']

/-- A character at which `_slice_sentences` cuts: a boundary character or a
newline (text_window.py line 46). -/
def isSentenceBoundaryChar (c : Char) : Bool :=
  SENTENCE_BOUNDARIES.contains c || c = '\n'

/-- `_strip_trailing_whitespace` (text_window.py lines 19-22). -/
def stripTrailingWhitespace (s : List Char) : List Char :=
  (s.reverse.dropWhile pyIsSpace).reverse

/-- `_strip_leading_whitespace` (text_window.py lines 25-32). -/
def stripLeadingWhitespace (s : List Char) : List Char :=
  s.dropWhile pyIsSpace

/-- The scanning loop of `_slice_sentences` (text_window.py lines 42-57):
`acc` holds the pending fragment's characters in reverse; a fragment is
emitted when it reaches a boundary character (or at end of input) and
contains a non-whitespace character. -/
def sliceGo : List Char → List Char → List (List Char)
  | acc, [] =>
      let frag := acc.reverse
      if frag ≠ [] ∧ frag.any (fun c => ¬ pyIsSpace c) then [frag] else []
  | acc, c :: rest =>
      if isSentenceBoundaryChar c then
        let frag := acc.reverse ++ [c]
        if frag.any (fun ch => ¬ pyIsSpace ch) then frag :: sliceGo [] rest
        else sliceGo [] rest
      else sliceGo (c :: acc) rest

/-- `_slice_sentences` (text_window.py lines 35-57). -/
def sliceSentences (context : List Char) : List (List Char) :=
  let trimmed := stripTrailingWhitespace context
  if trimmed = [] then [] else sliceGo [] trimmed

/-- `compute_last_sentence_length` (text_window.py lines 60-86). -/
def computeLastSentenceLength (context : List Char)
    (min_length : Int := 12) (max_length : Int := 400) : Int :=
  let sentences := sliceSentences context
  match sentences.getLast? with
  | none => min_length
  | some last =>
      let candidate := stripLeadingWhitespace last
      if candidate = [] then min_length
      else max min_length (min (candidate.length : Int) max_length)

/-- `compute_last_sentence_anchor` (text_window.py lines 89-113). -/
def computeLastSentenceAnchor (cursor : Int) (context : List Char)
    (min_length : Int := 12) (max_length : Int := 400) : Int × Int :=
  let safe_cursor := max 0 cursor
  let sentence_length := computeLastSentenceLength context min_length max_length
  (max 0 (safe_cursor - sentence_length), safe_cursor)

/-! ## Fresh token supply (models `uuid.uuid4()`)

Each call of `uuid.uuid4()` in the Python code yields a fresh token.  We model
the supply by a call counter `n : Nat` threaded through the operations; the
nth generated lock id is `lockTok n` and the nth generated action id is
`actTok n`.  Distinct indices give distinct, non-empty tokens. -/

/-- Models the Python f-string `"lock_" + str(uuid4())`. -/
def lockTok (n : Nat) : String := "lock_" ++ toString n

/-- Models the Python f-string `"act_" + str(uuid4())`. -/
def actTok (n : Nat) : String := "act_" ++ toString n

/-! ## Intervention service (`application/services/intervention_service.py`)

`InterventionService.generate_intervention` invokes the provider (its result
is the `response` argument here; telemetry around the call performs no data
transformation and is omitted), then applies the guard blocks in sequence.
Each block below is one contiguous block of the Python method, mutating the
response object. -/

/-- The fixed muse re-engagement message (intervention_service.py line 183). -/
def museReengageMsg : String := "重新审视你刚写下的句子，再给出更锋利的版本。"

/-- The fixed short-document protective message (intervention_service.py line 193). -/
def shortDocMsg : String := "文档内容太少，先扩写细节再让 Loki 介入。"

/-- Lines 180-187: muse mode never deletes; convert a muse delete to a
provoke with the fixed message, a fresh lock id and a point anchor at
`selection_from`. -/
def museGuard (request : InterventionRequest) (r : InterventionResponse) (n : Nat) :
    Except SvcError (InterventionResponse × Nat) :=
  if request.mode = .muse ∧ r.action = .delete then
    match anchorPosValidate request.client_meta.selection_from with
    | .error e => .error e
    | .ok anchor =>
        .ok ({ r with action := .provoke, content := some museReengageMsg,
                      lock_id := some (lockTok n), anchor := anchor }, n + 1)
  else .ok (r, n)

/-- Lines 189-199: if the action is still delete and `len(context) < 50`,
convert to a provoke with the protective message, a fresh lock id and a
point anchor at `selection_from`. -/
def shortGuard (request : InterventionRequest) (r : InterventionResponse) (n : Nat) :
    Except SvcError (InterventionResponse × Nat) :=
  if r.action = .delete ∧ request.context.length < 50 then
    match anchorPosValidate request.client_meta.selection_from with
    | .error e => .error e
    | .ok anchor =>
        .ok ({ r with action := .provoke, content := some shortDocMsg,
                      lock_id := some (lockTok n), anchor := anchor }, n + 1)
  else .ok (r, n)

/-- Line 203: `request.client_meta.selection_to or request.client_meta.selection_from`.
Python `or` on two plain ints picks the first unless it is zero. -/
def rewriteCursor (request : InterventionRequest) : Int :=
  if request.client_meta.selection_to ≠ 0 then request.client_meta.selection_to
  else request.client_meta.selection_from

/-- Lines 201-223: rewrite actions get a sentence-accurate anchor. -/
def rewriteRefine (request : InterventionRequest) (r : InterventionResponse) :
    Except SvcError InterventionResponse :=
  if r.action = .rewrite then
    let cursor := rewriteCursor request
    if 0 < cursor then
      let se := computeLastSentenceAnchor cursor request.context.data
      if se.1 < se.2 then
        match anchorRangeValidate se.1 se.2 with
        | .error e => .error e
        | .ok anchor => .ok { r with anchor := anchor }
      else .ok r
    else if r.anchor.isRange then .ok r
    else
      let cursor := request.client_meta.selection_from
      match anchorRangeValidate (max 0 (cursor - 1)) cursor with
      | .error e => .error e
      | .ok anchor => .ok { r with anchor := anchor }
  else .ok r

/-- Lines 225-231: ensure `action_id` is populated, then ensure `lock_id`
is populated for provoke/rewrite actions (`not response.lock_id` is true for
both `None` and the empty string). -/
def ensureIds (r : InterventionResponse) (n : Nat) : InterventionResponse × Nat :=
  let step := if r.action_id = "" then ({ r with action_id := actTok n }, n + 1) else (r, n)
  if (step.1.action = .provoke ∨ step.1.action = .rewrite) ∧ optStrFalsy step.1.lock_id then
    ({ step.1 with lock_id := some (lockTok step.2) }, step.2 + 1)
  else step

/-- `InterventionService.generate_intervention` (lines 98-233) from the point
where the provider has returned `response`: tag the source (line 178), then
apply the muse guard, the short-document guard, the rewrite anchor
refinement and the id backfills in that order. -/
def generateIntervention (request : InterventionRequest)
    (response : InterventionResponse) (n : Nat) :
    Except SvcError (InterventionResponse × Nat) :=
  match museGuard request { response with source := request.mode } n with
  | .error e => .error e
  | .ok (r, n) =>
    match shortGuard request r n with
    | .error e => .error e
    | .ok (r, n) =>
      match rewriteRefine request r with
      | .error e => .error e
      | .ok r => .ok (ensureIds r n)

/-! ## Shared provider adapter contract (`infrastructure/llm/base_provider.py`) -/

/-- `LLMInterventionDraft` (base_provider.py lines 18-22). -/
structure LLMInterventionDraft where
  action : Action
  content : Option String
deriving DecidableEq, Repr

/-- Python `a or b` on an optional int: `None` and `0` are falsy. -/
def pyOrOptInt (a : Option Int) (b : Int) : Int :=
  match a with
  | none => b
  | some v => if v = 0 then b else v

/-- `BasePromptLLMProvider.generate_intervention` (base_provider.py lines
34-77).  The backend call `_complete` has already produced `draft`; `n`
indexes the uuid supply.  Order matters: the provisional anchor is
constructed (and validated) before the missing-content check, exactly as in
the source. -/
def basePromptGenerate (draft : LLMInterventionDraft) (context : String) (mode : Mode)
    (selection_from selection_to : Option Int) (n : Nat) :
    Except SvcError InterventionResponse :=
  if context = "" then .error (.valueError "Context cannot be empty")
  else
    let cursor_pos := max 0 (pyOrOptInt selection_to (pyOrOptInt selection_from 0))
    let anchorE :=
      if draft.action = .provoke then anchorPosValidate cursor_pos
      else anchorRangeValidate (max 0 (cursor_pos - 120)) cursor_pos
    match anchorE with
    | .error e => .error e
    | .ok anchor =>
      if (draft.action = .provoke ∨ draft.action = .rewrite) ∧ optStrFalsy draft.content then
        .error (.valueError "LLM returned mutate action without content")
      else
        let lock_id := if draft.action = .provoke ∨ draft.action = .rewrite
          then some (lockTok n) else none
        let content := if draft.action = .provoke ∨ draft.action = .rewrite
          then draft.content else none
        interventionResponseValidate draft.action content lock_id anchor
          (actTok (n + 1)) mode

/-! ## Idempotency cache (`infrastructure/cache/idempotency_cache.py`)

The Python dict `cache: dict[str, tuple[Any, float]]` is modelled as an
association list with unique keys (dict insertion semantics preserve
uniqueness; `set` replaces in place, otherwise appends).  Every method reads
`time.time()` exactly once; that single reading is the explicit `now`
parameter.  The `threading.Lock` serialization is inherent in the
sequential semantics of the embedding. -/

/-- One cache entry: `(key, (response, expiry_timestamp))`. -/
abbrev CacheEntry (α : Type) := String × α × ℚ

/-- `IdempotencyCache.__init__` state: fixed `ttl` and the backing map. -/
structure IdempotencyCache (α : Type) where
  ttl : ℚ
  cache : List (CacheEntry α)

/-- Python dict assignment `d[key] = v`: replace the existing entry for the
key in place, or append a new entry. -/
def setAssoc {α : Type} (entries : List (CacheEntry α)) (key : String) (v : α) (expiry : ℚ) :
    List (CacheEntry α) :=
  match entries with
  | [] => [(key, v, expiry)]
  | e :: rest =>
      if e.1 = key then (key, v, expiry) :: rest
      else e :: setAssoc rest key v expiry

/-- Python dict deletion `del d[key]`: remove the entry for the key. -/
def delAssoc {α : Type} (entries : List (CacheEntry α)) (key : String) :
    List (CacheEntry α) :=
  entries.eraseP (fun e => e.1 = key)

/-- Python dict membership / indexing. -/
def findAssoc {α : Type} (entries : List (CacheEntry α)) (key : String) :
    Option (α × ℚ) :=
  (entries.find? (fun e => e.1 = key)).map (fun e => e.2)

/-- `IdempotencyCache.get` (lines 58-87): return the value unless missing or
expired; an expired entry is deleted on the way.  `now` is the method's
single `time.time()` reading. -/
def IdempotencyCache.get {α : Type} (c : IdempotencyCache α) (key : String) (now : ℚ) :
    Option α × IdempotencyCache α :=
  match findAssoc c.cache key with
  | none => (none, c)
  | some (response, expiry) =>
      if expiry < now then (none, { c with cache := delAssoc c.cache key })
      else (some response, c)

/-- `IdempotencyCache.set` (lines 89-104): store with `expiry = now + ttl`,
overwriting any prior entry for the key. -/
def IdempotencyCache.set {α : Type} (c : IdempotencyCache α) (key : String) (response : α)
    (now : ℚ) : IdempotencyCache α :=
  { c with cache := setAssoc c.cache key response (now + c.ttl) }

/-- `IdempotencyCache.clear` (lines 106-117). -/
def IdempotencyCache.clear {α : Type} (c : IdempotencyCache α) : IdempotencyCache α :=
  { c with cache := [] }

/-- `IdempotencyCache.cleanup_expired` (lines 119-141): collect the keys
whose expiry has passed, delete each, and return how many were removed. -/
def IdempotencyCache.cleanup_expired {α : Type} (c : IdempotencyCache α) (now : ℚ) :
    Nat × IdempotencyCache α :=
  let expired_keys := (c.cache.filter (fun e => decide (e.2.2 < now))).map (fun e => e.1)
  let remaining := expired_keys.foldl (fun es k => delAssoc es k) c.cache
  (expired_keys.length, { c with cache := remaining })

/-- Well-formedness of the backing map: keys are unique, as in a Python dict. -/
def IdempotencyCache.KeysNodup {α : Type} (c : IdempotencyCache α) : Prop :=
  (c.cache.map (fun e => e.1)).Nodup

/-! ## Provider registry (`infrastructure/llm/provider_registry.py`) -/

/-- `ProviderName` (provider_registry.py line 16). -/
inductive ProviderName
  | openai
  | anthropic
  | gemini
  | debug
deriving DecidableEq, Repr

/-- The string form of each provider name literal. -/
def providerNameStr : ProviderName → String
  | .openai => "openai"
  | .anthropic => "anthropic"
  | .gemini => "gemini"
  | .debug => "debug"

/-- `_MODEL_FALLBACKS` (provider_registry.py lines 32-37). -/
def modelFallback : ProviderName → String
  | .openai => "gpt-4o-mini"
  | .anthropic => "claude-3-5-haiku-latest"
  | .gemini => "gemini-2.0-flash-lite"
  | .debug => "debug-model"

/-- `_TEMP_FALLBACKS` (provider_registry.py lines 46-51). -/
def tempFallback : ProviderName → ℚ
  | .openai => 9/10
  | .anthropic => 8/10
  | .gemini => 7/10
  | .debug => 0

/-- `ProviderConfig` (provider_registry.py lines 54-59). -/
structure ProviderConfig where
  provider : ProviderName
  api_key : String
  model : String
  temperature : ℚ
deriving DecidableEq, Repr

/-- `ProviderOverride` (provider_registry.py lines 62-66). -/
structure ProviderOverride where
  provider : Option String := none
  model : Option String := none
  api_key : Option String := none
deriving DecidableEq, Repr

/-- A constructed provider instance.  Python object identity (each
`_instantiate` call builds a new object) is modelled by the allocation
counter value `id`. -/
structure LLMInstance where
  id : Nat
  provider : ProviderName
  api_key : String
  model : String
  temperature : ℚ
deriving DecidableEq, Repr

/-- `ProviderRegistry` state.  `env_model`/`env_temperature` model the
`os.getenv` reads of `_default_model` / `_default_temperature` (an absent or
unparsable temperature value is `none`, the float-parse fallback being folded
into `getD`).  `next_id` is the allocation counter for fresh instances. -/
structure ProviderRegistry where
  allow_debug : Bool
  default_provider : ProviderName
  default_configs : List (ProviderName × ProviderConfig)
  default_instances : List (ProviderName × LLMInstance)
  env_model : ProviderName → Option String
  env_temperature : ProviderName → Option ℚ
  next_id : Nat

/-- `_normalize` (provider_registry.py lines 245-249). -/
def normalizeStr : Option String → Option String
  | none => none
  | some s => let t := pyStrip s; if t = "" then none else some t

/-- `_default_model` (provider_registry.py lines 252-254). -/
def defaultModel (st : ProviderRegistry) (p : ProviderName) : String :=
  (normalizeStr (st.env_model p)).getD (modelFallback p)

/-- `_default_temperature` (provider_registry.py lines 257-264). -/
def defaultTemperature (st : ProviderRegistry) (p : ProviderName) : ℚ :=
  (st.env_temperature p).getD (tempFallback p)

/-- String to provider-name parse used by `_coerce_provider`'s membership
test of the allowed set. -/
def parseProviderName (s : String) : Option ProviderName :=
  if s = "openai" then some .openai
  else if s = "anthropic" then some .anthropic
  else if s = "gemini" then some .gemini
  else if s = "debug" then some .debug
  else none

/-- `_coerce_provider` (provider_registry.py lines 230-242): normalize via
`(name or "openai").strip().lower()` and reject names outside the allowed
set, which contains `debug` only when the debug flag is on. -/
def coerceProvider (st : ProviderRegistry) (name : String) : Except SvcError ProviderName :=
  let base := if name = "" then "openai" else name
  let normalized := pyLower (pyStrip base)
  match parseProviderName normalized with
  | some p =>
      if p = .debug ∧ ¬ st.allow_debug then
        .error (.providerError "unsupported_provider"
          ("Unsupported provider: " ++ normalized) 422 (some normalized))
      else .ok p
  | none =>
      .error (.providerError "unsupported_provider"
        ("Unsupported provider: " ++ normalized) 422 (some normalized))

/-- The argument of `_coerce_provider` in `_resolve_config` (line 107):
`override.provider or self.default_provider` (a `None` or empty override
falls back to the default provider's name). -/
def overrideNameArg (st : ProviderRegistry) (ov : ProviderOverride) : String :=
  match ov.provider with
  | some s => if s = "" then providerNameStr st.default_provider else s
  | none => providerNameStr st.default_provider

/-- Dict lookup in `self._default_configs` / `self._default_instances`. -/
def lookupByName {β : Type} (entries : List (ProviderName × β)) (p : ProviderName) :
    Option β :=
  (entries.find? (fun e => e.1 = p)).map (fun e => e.2)

/-- `_resolve_config` (provider_registry.py lines 100-163).  Returns the
config plus the `cacheable` flag, `none` standing for the `allow_blank`
path. -/
def resolveConfig (st : ProviderRegistry) (overrides : Option ProviderOverride)
    (allow_blank : Bool) : Except SvcError (Option (ProviderConfig × Bool)) :=
  let override := overrides.getD {}
  match coerceProvider st (overrideNameArg st override) with
  | .error e => .error e
  | .ok normalized_provider =>
    let model_override := normalizeStr override.model
    let api_key_override := normalizeStr override.api_key
    if normalized_provider = .debug then
      if ¬ st.allow_debug then
        .error (.providerError "unsupported_provider" "Debug provider disabled" 422
          (some "debug"))
      else
        .ok (some (⟨.debug, "", model_override.getD (defaultModel st .debug),
          defaultTemperature st .debug⟩, true))
    else
      match api_key_override with
      | some key =>
          .ok (some (⟨normalized_provider, key,
            model_override.getD (defaultModel st normalized_provider),
            defaultTemperature st normalized_provider⟩, false))
      | none =>
          match lookupByName st.default_configs normalized_provider with
          | some default_cfg =>
              .ok (some (⟨normalized_provider, default_cfg.api_key,
                model_override.getD default_cfg.model, default_cfg.temperature⟩, true))
          | none =>
              if allow_blank then .ok none
              else .error (.providerError "llm_not_configured"
                "Server-side LLM key missing. Provide BYOK credentials." 503
                (some (providerNameStr normalized_provider)))

/-- `_instantiate` (provider_registry.py lines 176-202): constructs a new
provider object (fresh identity) from the config. -/
def instantiate (st : ProviderRegistry) (config : ProviderConfig) :
    LLMInstance × ProviderRegistry :=
  (⟨st.next_id, config.provider, config.api_key, config.model, config.temperature⟩,
    { st with next_id := st.next_id + 1 })

/-- `_build_provider` (provider_registry.py lines 165-174): cacheable
configs reuse or populate the default-instance singleton map; uncacheable
(BYOK) configs always build a fresh instance and never touch the map. -/
def buildProvider (st : ProviderRegistry) (config : ProviderConfig) (cacheable : Bool) :
    LLMInstance × ProviderRegistry :=
  if cacheable then
    match lookupByName st.default_instances config.provider with
    | some cached => (cached, st)
    | none =>
        let built := instantiate st config
        (built.1, { built.2 with
          default_instances := built.2.default_instances ++ [(config.provider, built.1)] })
  else instantiate st config

/-- `get_provider` (provider_registry.py lines 88-98). -/
def getProvider (st : ProviderRegistry) (overrides : Option ProviderOverride)
    (allow_blank : Bool) : Except SvcError (Option LLMInstance × ProviderRegistry) :=
  match resolveConfig st overrides allow_blank with
  | .error e => .error e
  | .ok none => .ok (none, st)
  | .ok (some (config, cacheable)) =>
      let built := buildProvider st config cacheable
      .ok (some built.1, built.2)

/-- Registry allocation invariant: every cached default instance was
allocated before `next_id`. -/
def ProviderRegistry.AllocInv (st : ProviderRegistry) : Prop :=
  ∀ p inst, lookupByName st.default_instances p = some inst → inst.id < st.next_id

/-! ## Concrete adapter exception translation

Each adapter's `_complete`/`create` wraps its backend call in try/except
blocks.  The backend behaviours that matter are enumerated per adapter; the
functions below are the translation of the corresponding except-clauses and
payload checks.  `PayloadParse` models whether a returned text payload
parses as `LLMInterventionDraft` JSON: `LLMInterventionDraft.model_validate_json`
either succeeds or raises a pydantic validation error. -/

/-- Whether a backend text payload parses as an `LLMInterventionDraft`. -/
inductive PayloadParse
  | parses (d : LLMInterventionDraft)
  | unparseable
deriving DecidableEq, Repr

/-- What the Anthropic SDK call `client.messages.create` does
(anthropic_provider.py lines 44-79): raise one of the typed SDK errors, or
return a message whose text blocks are given. -/
inductive AnthropicEvent
  | rateLimitError
  | authenticationError
  | apiError
  | otherException
  | message (text_blocks : List PayloadParse)

/-- `AnthropicLLMProvider._complete` (anthropic_provider.py lines 31-90):
the four except-clauses map SDK errors onto the taxonomy; an empty
text-block list raises `invalid_response`; the first text block is parsed
with `model_validate_json`, whose failure (outside any try block) escapes
as a pydantic validation error. -/
def anthropicComplete : AnthropicEvent → Except SvcError LLMInterventionDraft
  | .rateLimitError => .error (.providerError "quota_exceeded"
      "Anthropic quota exceeded. Provide another key or try later." 402 (some "anthropic"))
  | .authenticationError => .error (.providerError "invalid_api_key"
      "Anthropic API key rejected." 401 (some "anthropic"))
  | .apiError => .error (.providerError "llm_api_error"
      "Anthropic API error" 502 (some "anthropic"))
  | .otherException => .error (.providerError "llm_api_error"
      "Anthropic request failed." 502 (some "anthropic"))
  | .message [] => .error (.providerError "invalid_response"
      "Anthropic returned no text blocks" 502 (some "anthropic"))
  | .message (.parses d :: _) => .ok d
  | .message (.unparseable :: _) =>
      .error (.validationError "invalid JSON for LLMInterventionDraft")

/-- What the Gemini HTTP call does (gemini_provider.py lines 49-101): an
`httpx.HTTPStatusError` with a status code, another `httpx.HTTPError`, or a
JSON body summarised by whether candidates are present and what the first
non-empty text part is. -/
inductive GeminiEvent
  | statusError (status : Int)
  | transportError
  | body (candidates_present : Bool) (text : Option PayloadParse)

/-- `GeminiLLMProvider._complete` (gemini_provider.py lines 27-101). -/
def geminiComplete : GeminiEvent → Except SvcError LLMInterventionDraft
  | .statusError status =>
      if status = 429 then .error (.providerError "quota_exceeded"
        "Gemini quota exceeded. Provide another key or try later." 402 (some "gemini"))
      else if status = 401 ∨ status = 403 then .error (.providerError "invalid_api_key"
        "Gemini API key rejected." 401 (some "gemini"))
      else .error (.providerError "llm_api_error"
        "Gemini API error." 502 (some "gemini"))
  | .transportError => .error (.providerError "llm_api_error"
      "Gemini request failed." 502 (some "gemini"))
  | .body false _ => .error (.providerError "invalid_response"
      "Gemini returned empty candidates" 502 (some "gemini"))
  | .body true none => .error (.providerError "invalid_response"
      "Gemini returned no text content" 502 (some "gemini"))
  | .body true (some (.parses d)) => .ok d
  | .body true (some .unparseable) =>
      .error (.validationError "invalid JSON for LLMInterventionDraft")

/-- What the Instructor-patched OpenAI call
`self.client.chat.completions.create` does (instructor_provider.py lines
117-128): raise some backend exception (rate limit, auth failure, API
error, transport failure, or an instructor-internal parse failure), or
return a schema-validated draft. -/
inductive OpenAIEvent
  | rateLimitError
  | authenticationError
  | apiError
  | otherException
  | parseFailure
  | completion (d : LLMInterventionDraft)

/-- The Instructor/OpenAI adapter's backend call handling
(instructor_provider.py lines 117-128): a single `except Exception` clause
re-raises **every** backend exception as a generic `RuntimeError`, with no
taxonomy code. -/
def instructorCreate : OpenAIEvent → Except SvcError LLMInterventionDraft
  | .completion d => .ok d
  | _ => .error (.runtimeError "LLM API call failed")

/-- Is an adapter outcome an `LLMProviderError` of the stable taxonomy? -/
def isTaxonomyError {β : Type} : Except SvcError β → Bool
  | .error (.providerError _ _ _ _) => true
  | _ => false

/-! ## Helper lemmas -/

theorem lockTok_ne_empty (n : Nat) : lockTok n ≠ "" := by
  intro h
  have hlen : (lockTok n).length = 0 := by rw [h]; rfl
  rw [lockTok, String.length_append] at hlen
  have h5 : ("lock_" : String).length = 5 := rfl
  omega

theorem actTok_ne_empty (n : Nat) : actTok n ≠ "" := by
  intro h
  have hlen : (actTok n).length = 0 := by rw [h]; rfl
  rw [actTok, String.length_append] at hlen
  have h4 : ("act_" : String).length = 4 := rfl
  omega

theorem optStrFalsy_lockTok (n : Nat) : optStrFalsy (some (lockTok n)) = false := by
  simp [optStrFalsy]
  exact lockTok_ne_empty n

theorem ensureIds_fields (r : InterventionResponse) (n : Nat) :
    (ensureIds r n).1.action = r.action ∧ (ensureIds r n).1.content = r.content ∧
    (ensureIds r n).1.anchor = r.anchor ∧ (ensureIds r n).1.source = r.source := by
  simp only [ensureIds]
  split <;> split <;> simp

theorem ensureIds_action_id (r : InterventionResponse) (n : Nat) :
    (ensureIds r n).1.action_id ≠ "" := by
  simp only [ensureIds]
  split
  · split
    · simpa using actTok_ne_empty n
    · simpa using actTok_ne_empty n
  · split
    · simp
      next h _ => exact h
    · simp
      next h _ => exact h

theorem ensureIds_lock_id_of_not_falsy (r : InterventionResponse) (n : Nat)
    (h : optStrFalsy r.lock_id = false) :
    (ensureIds r n).1.lock_id = r.lock_id := by
  simp only [ensureIds]
  split <;> split <;> simp_all

theorem ensureIds_lock_id_of_delete (r : InterventionResponse) (n : Nat)
    (h : r.action = .delete) :
    (ensureIds r n).1.lock_id = r.lock_id := by
  simp only [ensureIds]
  split <;> split <;> simp_all

theorem museGuard_not_fire (request : InterventionRequest) (r : InterventionResponse)
    (n : Nat) (h : ¬(request.mode = .muse ∧ r.action = .delete)) :
    museGuard request r n = .ok (r, n) := by
  simp [museGuard, h]

theorem museGuard_fire (request : InterventionRequest) (r : InterventionResponse) (n : Nat)
    (hm : request.mode = .muse) (hd : r.action = .delete)
    (hsf : 0 ≤ request.client_meta.selection_from) :
    museGuard request r n =
      .ok ({ r with action := .provoke, content := some museReengageMsg,
                    lock_id := some (lockTok n),
                    anchor := .pos request.client_meta.selection_from }, n + 1) := by
  simp [museGuard, hm, hd, anchorPosValidate, hsf]

theorem shortGuard_not_fire (request : InterventionRequest) (r : InterventionResponse)
    (n : Nat) (h : ¬(r.action = .delete ∧ request.context.length < 50)) :
    shortGuard request r n = .ok (r, n) := by
  simp [shortGuard, h]

theorem shortGuard_fire (request : InterventionRequest) (r : InterventionResponse) (n : Nat)
    (hd : r.action = .delete) (hlen : request.context.length < 50)
    (hsf : 0 ≤ request.client_meta.selection_from) :
    shortGuard request r n =
      .ok ({ r with action := .provoke, content := some shortDocMsg,
                    lock_id := some (lockTok n),
                    anchor := .pos request.client_meta.selection_from }, n + 1) := by
  simp [shortGuard, hd, hlen, anchorPosValidate, hsf]

theorem rewriteRefine_skip (request : InterventionRequest) (r : InterventionResponse)
    (h : r.action ≠ .rewrite) : rewriteRefine request r = .ok r := by
  simp [rewriteRefine, h]

theorem rewriteRefine_ok_fields (request : InterventionRequest)
    (r r' : InterventionResponse) (h : rewriteRefine request r = .ok r') :
    r'.action = r.action ∧ r'.content = r.content ∧ r'.lock_id = r.lock_id ∧
    r'.action_id = r.action_id ∧ r'.source = r.source := by
  simp only [rewriteRefine] at h
  split at h <;> [skip; (injection h with h; subst h; simp)]
  split at h
  · split at h
    · split at h
      · cases h
      · injection h with h; subst h; simp
    · injection h with h; subst h; simp
  · split at h
    · injection h with h; subst h; simp
    · split at h
      · cases h
      · injection h with h; subst h; simp

theorem generateIntervention_ok_inversion (request : InterventionRequest)
    (response : InterventionResponse) (n : Nat) (out : InterventionResponse × Nat)
    (h : generateIntervention request response n = .ok out) :
    ∃ r₁ n₁ r₂ n₂ r₃,
      museGuard request { response with source := request.mode } n = .ok (r₁, n₁) ∧
      shortGuard request r₁ n₁ = .ok (r₂, n₂) ∧
      rewriteRefine request r₂ = .ok r₃ ∧
      out = ensureIds r₃ n₂ := by
  cases hmg : museGuard request { response with source := request.mode } n with
  | error e => simp [generateIntervention, hmg] at h
  | ok p =>
    obtain ⟨r₁, n₁⟩ := p
    cases hsg : shortGuard request r₁ n₁ with
    | error e => simp [generateIntervention, hmg, hsg] at h
    | ok q =>
      obtain ⟨r₂, n₂⟩ := q
      cases hrr : rewriteRefine request r₂ with
      | error e => simp [generateIntervention, hmg, hsg, hrr] at h
      | ok r₃ =>
        refine ⟨r₁, n₁, r₂, n₂, r₃, rfl, hsg, hrr, ?_⟩
        simp [generateIntervention, hmg, hsg, hrr] at h
        exact h.symm

theorem museGuard_skip_of_ne_delete (request : InterventionRequest)
    (r : InterventionResponse) (n : Nat) (hne : r.action ≠ .delete) :
    museGuard request r n = .ok (r, n) :=
  museGuard_not_fire request r n (fun hc => hne hc.2)

theorem shortGuard_skip_of_ne_delete (request : InterventionRequest)
    (r : InterventionResponse) (n : Nat) (hne : r.action ≠ .delete) :
    shortGuard request r n = .ok (r, n) :=
  shortGuard_not_fire request r n (fun hc => hne hc.1)

theorem museGuard_ok_muse_action (request : InterventionRequest)
    (r : InterventionResponse) (n : Nat) (r₁ : InterventionResponse) (n₁ : Nat)
    (hmode : request.mode = .muse) (h : museGuard request r n = .ok (r₁, n₁)) :
    r₁.action ≠ .delete := by
  simp only [museGuard] at h
  split at h
  · split at h
    · cases h
    · injection h with h
      have := congrArg (fun p => Prod.fst p) h
      simp at this
      rw [← this]
      simp
  · injection h with h
    have := congrArg (fun p => Prod.fst p) h
    simp at this
    rw [← this]
    rename_i hcond
    rw [hmode] at hcond
    simpa using hcond

theorem generate_muse_delete (request : InterventionRequest)
    (response : InterventionResponse) (n : Nat) (hmode : request.mode = .muse)
    (hsf : 0 ≤ request.client_meta.selection_from)
    (hdel : response.action = .delete) :
    ∃ out, generateIntervention request response n = .ok out ∧
      out.1.action = .provoke ∧
      out.1.content = some museReengageMsg ∧
      out.1.lock_id = some (lockTok n) ∧
      out.1.anchor = .pos request.client_meta.selection_from := by
  have hfire := museGuard_fire request { response with source := request.mode } n hmode
    (by simpa using hdel) hsf
  set rr : InterventionResponse := { response with source := request.mode, action := .provoke, content := some museReengageMsg, lock_id := some (lockTok n), anchor := .pos request.client_meta.selection_from } with hrr_def
  have hfire' : museGuard request { response with source := request.mode } n =
      .ok (rr, n + 1) := hfire
  have hsg := shortGuard_skip_of_ne_delete request rr (n + 1) (by simp [hrr_def])
  have hrw := rewriteRefine_skip request rr (by simp [hrr_def])
  have hgen : generateIntervention request response n = .ok (ensureIds rr (n + 1)) := by
    simp [generateIntervention, hfire', hsg, hrw]
  refine ⟨ensureIds rr (n + 1), hgen, ?_, ?_, ?_, ?_⟩
  · rw [(ensureIds_fields rr (n + 1)).1]
  · rw [(ensureIds_fields rr (n + 1)).2.1]
  · rw [ensureIds_lock_id_of_not_falsy rr (n + 1) (optStrFalsy_lockTok n)]
  · rw [(ensureIds_fields rr (n + 1)).2.2.1]

/-! ## Claim theorems -/

/-- C1: in muse mode the service never returns a delete: whenever the
provider's raw action is delete, the muse guard converts it to a provoke
carrying the fixed re-engagement message, a fresh lock id, and a point
anchor at the client's `selection_from`. -/
theorem muse_mode_never_deletes (request : InterventionRequest)
    (response : InterventionResponse) (n : Nat)
    (hmode : request.mode = .muse)
    (hsf : 0 ≤ request.client_meta.selection_from) :
    (∀ out, generateIntervention request response n = .ok out →
      out.1.action ≠ .delete) ∧
    (response.action = .delete →
      ∃ out, generateIntervention request response n = .ok out ∧
        out.1.action = .provoke ∧
        out.1.content = some museReengageMsg ∧
        out.1.lock_id = some (lockTok n) ∧
        out.1.anchor = .pos request.client_meta.selection_from) := by
  constructor
  · intro out h
    obtain ⟨r₁, n₁, r₂, n₂, r₃, hmg, hsg, hrr, hout⟩ :=
      generateIntervention_ok_inversion request response n out h
    have hr₁ : r₁.action ≠ .delete := museGuard_ok_muse_action _ _ _ _ _ hmode hmg
    rw [shortGuard_skip_of_ne_delete request r₁ n₁ hr₁] at hsg
    injection hsg with hsg
    cases hsg
    have h₃ := (rewriteRefine_ok_fields request r₁ r₃ hrr).1
    have h₄ := (ensureIds_fields r₃ n₁).1
    rw [hout, h₄, h₃]
    exact hr₁
  · exact generate_muse_delete request response n hmode hsf

/-- C1 witness: a concrete muse request whose provider draft deletes is
returned as a provoke with the re-engagement message. -/
theorem muse_mode_never_deletes_witness :
    (⟨"他打开门，犹豫着要不要进去。", .muse, ⟨42, 14, 14⟩⟩ :
        InterventionRequest).mode = .muse ∧
    ∃ out,
      generateIntervention ⟨"他打开门，犹豫着要不要进去。", .muse, ⟨42, 14, 14⟩⟩
        ⟨.delete, none, none, .range 0 14, "act_raw", .loki⟩ 0 = .ok out ∧
      out.1.action = .provoke ∧
      out.1.content = some museReengageMsg ∧
      out.1.lock_id = some (lockTok 0) ∧
      out.1.anchor = .pos 14 :=
  ⟨rfl,
    (muse_mode_never_deletes
      ⟨"他打开门，犹豫着要不要进去。", .muse, ⟨42, 14, 14⟩⟩
      ⟨.delete, none, none, .range 0 14, "act_raw", .loki⟩ 0 rfl
      (by norm_num)).2 rfl⟩

/-- C2: the short-document guard converts a still-delete action into a
provoke with the protective message exactly when the context is strictly
shorter than 50 characters; at exactly 50 characters (or longer) a loki
delete passes through unchanged; and the guard runs after the muse
conversion, so a short-context muse delete keeps the muse message. -/
theorem short_document_guard_spec (request : InterventionRequest)
    (response : InterventionResponse) (n : Nat)
    (hsf : 0 ≤ request.client_meta.selection_from) :
    (request.mode = .loki → response.action = .delete →
      request.context.length < 50 →
      ∃ out, generateIntervention request response n = .ok out ∧
        out.1.action = .provoke ∧
        out.1.content = some shortDocMsg ∧
        out.1.lock_id = some (lockTok n) ∧
        out.1.anchor = .pos request.client_meta.selection_from) ∧
    (request.mode = .loki → response.action = .delete →
      50 ≤ request.context.length →
      ∃ out, generateIntervention request response n = .ok out ∧
        out.1.action = .delete ∧
        out.1.content = response.content ∧
        out.1.lock_id = response.lock_id ∧
        out.1.anchor = response.anchor) ∧
    (request.mode = .muse → response.action = .delete →
      request.context.length < 50 →
      ∃ out, generateIntervention request response n = .ok out ∧
        out.1.action = .provoke ∧
        out.1.content = some museReengageMsg) := by
  refine ⟨?_, ?_, ?_⟩
  · intro hmode hdel hlen
    have hmg := museGuard_not_fire request { response with source := request.mode } n
      (by simp [hmode])
    have hfire := shortGuard_fire request { response with source := request.mode } n
      (by simpa using hdel) hlen hsf
    set rr : InterventionResponse := { response with source := request.mode, action := .provoke, content := some shortDocMsg, lock_id := some (lockTok n), anchor := .pos request.client_meta.selection_from } with hrr_def
    have hfire' : shortGuard request { response with source := request.mode } n =
        .ok (rr, n + 1) := hfire
    have hrw := rewriteRefine_skip request rr (by simp [hrr_def])
    have hgen : generateIntervention request response n = .ok (ensureIds rr (n + 1)) := by
      simp [generateIntervention, hmg, hfire', hrw]
    refine ⟨ensureIds rr (n + 1), hgen, ?_, ?_, ?_, ?_⟩
    · rw [(ensureIds_fields rr (n + 1)).1]
    · rw [(ensureIds_fields rr (n + 1)).2.1]
    · rw [ensureIds_lock_id_of_not_falsy rr (n + 1) (optStrFalsy_lockTok n)]
    · rw [(ensureIds_fields rr (n + 1)).2.2.1]
  · intro hmode hdel hlen
    have hmg := museGuard_not_fire request { response with source := request.mode } n
      (by simp [hmode])
    have hsg := shortGuard_not_fire request { response with source := request.mode } n
      (by simp; omega)
    have hrw := rewriteRefine_skip request { response with source := request.mode }
      (by simp [hdel])
    have hgen : generateIntervention request response n =
        .ok (ensureIds { response with source := request.mode } n) := by
      simp [generateIntervention, hmg, hsg, hrw]
    refine ⟨ensureIds { response with source := request.mode } n, hgen, ?_, ?_, ?_, ?_⟩
    · rw [(ensureIds_fields _ n).1]; simpa using hdel
    · rw [(ensureIds_fields _ n).2.1]
    · rw [ensureIds_lock_id_of_delete _ n (by simpa using hdel)]
    · rw [(ensureIds_fields _ n).2.2.1]
  · intro hmode hdel _
    obtain ⟨out, hgen, hact, hcont, _, _⟩ :=
      generate_muse_delete request response n hmode hsf hdel
    exact ⟨out, hgen, hact, hcont⟩

/-- C2 witness: with a 49-character context a loki delete is converted to
the protective provoke; with a 50-character context it passes unchanged. -/
theorem short_document_guard_spec_witness :
    (∃ out,
      generateIntervention
        ⟨String.mk (List.replicate 49 'a'), .loki, ⟨1, 3, 3⟩⟩
        ⟨.delete, none, none, .range 0 3, "act_raw", .loki⟩ 0 = .ok out ∧
      out.1.action = .provoke ∧
      out.1.content = some shortDocMsg ∧
      out.1.lock_id = some (lockTok 0) ∧
      out.1.anchor = .pos 3) ∧
    (∃ out,
      generateIntervention
        ⟨String.mk (List.replicate 50 'a'), .loki, ⟨1, 3, 3⟩⟩
        ⟨.delete, none, none, .range 0 3, "act_raw", .loki⟩ 0 = .ok out ∧
      out.1.action = .delete ∧
      out.1.content = none ∧
      out.1.lock_id = none ∧
      out.1.anchor = .range 0 3) :=
  ⟨(short_document_guard_spec
      ⟨String.mk (List.replicate 49 'a'), .loki, ⟨1, 3, 3⟩⟩
      ⟨.delete, none, none, .range 0 3, "act_raw", .loki⟩ 0 (by norm_num)).1
      rfl rfl (by simp [String.length]),
    (short_document_guard_spec
      ⟨String.mk (List.replicate 50 'a'), .loki, ⟨1, 3, 3⟩⟩
      ⟨.delete, none, none, .range 0 3, "act_raw", .loki⟩ 0 (by norm_num)).2.1
      rfl rfl (by simp [String.length])⟩

/-- C3: every `InterventionResponse` accepted by the pydantic validators
satisfies the action-field invariant (provoke/rewrite carry non-blank
content and a non-empty lock id, delete forces both to `None`,
rewrite/delete carry a range anchor) and a non-empty `action_id`; and
every response returned by the service carries a non-empty `action_id`. -/
theorem intervention_response_invariant :
    (∀ action content lock_id anchor action_id source r,
      interventionResponseValidate action content lock_id anchor action_id source =
        .ok r → r.PayloadInvariant ∧ r.action_id ≠ "") ∧
    (∀ request response n out,
      generateIntervention request response n = .ok out →
      out.1.action_id ≠ "") := by
  constructor
  · intro action content lock_id anchor action_id source r h
    by_cases hdel : action = .delete
    · subst hdel
      simp only [interventionResponseValidate] at h
      simp only [show (Action.delete = Action.provoke ∨ Action.delete = Action.rewrite) ↔
        False by simp, false_and, if_false, if_pos rfl, true_and] at h
      split_ifs at h with h1 h2 h3 hr h4
      injection h with h
      subst h
      refine ⟨⟨?_, ?_, ?_⟩, h3⟩
      · intro hpr
        simp only at hpr
        rcases hpr with h' | h' <;> exact Action.noConfusion h'
      · intro _
        exact ⟨rfl, rfl⟩
      · intro _
        simpa using h4
    · simp only [interventionResponseValidate] at h
      simp only [show (action = Action.delete) ↔ False from iff_false_intro hdel,
        false_and, if_false] at h
      split_ifs at h with h1 h2 h3 h4 h5 h6
      injection h with h
      subst h
      refine ⟨⟨?_, ?_, ?_⟩, h3⟩
      · intro hpr
        simp only at hpr
        have hb : ¬(optStrFalsy content || strBlank (content.getD "")) = true :=
          fun hb => h4 ⟨hpr, hb⟩
        have hl : ¬(optStrFalsy lock_id) = true := fun hl => h5 ⟨hpr, hl⟩
        simp only [Bool.or_eq_true, not_or, Bool.not_eq_true] at hb hl
        constructor
        · cases content with
          | none => simp [optStrFalsy] at hb
          | some c =>
            refine ⟨c, rfl, ?_⟩
            simpa using hb.2
        · cases lock_id with
          | none => simp [optStrFalsy] at hl
          | some l =>
            refine ⟨l, rfl, ?_⟩
            intro hle
            rw [hle] at hl
            simp [optStrFalsy] at hl
      · intro hd
        simp only at hd
        exact absurd hd hdel
      · intro hrd
        simp only at hrd
        rcases hrd with h' | h'
        · by_contra hnr
          simp only [Bool.not_eq_true] at hnr
          exact h6 ⟨h', by simpa using hnr⟩
        · exact absurd h' hdel
  · intro request response n out h
    obtain ⟨r₁, n₁, r₂, n₂, r₃, hmg, hsg, hrr, hout⟩ :=
      generateIntervention_ok_inversion request response n out h
    rw [hout]
    exact ensureIds_action_id r₃ n₂

/-- C3 witness: a concrete provoke payload accepted by the validator
satisfies the invariant, and a concrete service run returns a non-empty
action id. -/
theorem intervention_response_invariant_witness :
    ((⟨.provoke, some "嗨", some "lock_1", .pos 3, "act_1", .muse⟩ :
      InterventionResponse).PayloadInvariant ∧ ("act_1" : String) ≠ "") ∧
    ((⟨.provoke, some "x", some "l", .pos 0, "act_1", .loki⟩ :
      InterventionResponse), 0).1.action_id ≠ "" :=
  ⟨intervention_response_invariant.1 .provoke (some "嗨") (some "lock_1")
      (.pos 3) "act_1" .muse
      ⟨.provoke, some "嗨", some "lock_1", .pos 3, "act_1", .muse⟩ rfl,
    intervention_response_invariant.2 ⟨"hello.", .loki, ⟨0, 0, 0⟩⟩
      ⟨.provoke, some "x", some "l", .pos 0, "act_1", .loki⟩ 0
      (⟨.provoke, some "x", some "l", .pos 0, "act_1", .loki⟩, 0) rfl⟩

/-- C4: evaluation of the code at the failing input.  The `AnchorRange`
model accepts `from = 5, to = 3` (it only validates `from ge 0` and
`to gt 0`, not `to > from`), and a delete `InterventionResponse` carrying
that inverted range passes `_validate_payload`, contradicting both the
spec's data-model claim (`range requires to > from`) and the field's own
docstring. -/
theorem anchor_range_accepts_inverted_bounds :
    anchorRangeValidate 5 3 = .ok (.range 5 3) ∧
    interventionResponseValidate .delete none none (.range 5 3) "act_1" .loki =
      .ok ⟨.delete, none, none, .range 5 3, "act_1", .loki⟩ ∧
    ¬ ((5 : Int) < 3) := by
  refine ⟨rfl, rfl, by decide⟩

theorem twelve_le_computeLastSentenceLength (ctx : List Char) :
    12 ≤ computeLastSentenceLength ctx 12 400 := by
  simp only [computeLastSentenceLength]
  rcases hgl : (sliceSentences ctx).getLast? with _ | last
  · simp
  · simp only
    by_cases hc : stripLeadingWhitespace last = []
    · simp [hc]
    · simp [hc, le_max_iff]

/-- C9: `compute_last_sentence_anchor` returns
`(max 0 (cursor - L), max 0 cursor)` where `L` is the leading-stripped
length of the last sentence fragment of the trailing-stripped context,
clamped into `[12, 400]`, and `L = 12` when no non-whitespace fragments
exist. -/
theorem compute_last_sentence_anchor_spec (cursor : Int) (ctx : List Char) :
    12 ≤ computeLastSentenceLength ctx 12 400 ∧
    computeLastSentenceLength ctx 12 400 =
      (match (sliceSentences ctx).getLast? with
       | none => (12 : Int)
       | some last => max 12 (min ((stripLeadingWhitespace last).length : Int) 400)) ∧
    computeLastSentenceAnchor cursor ctx =
      (max 0 (cursor - computeLastSentenceLength ctx 12 400), max 0 cursor) := by
  refine ⟨twelve_le_computeLastSentenceLength ctx, ?_, ?_⟩
  · simp only [computeLastSentenceLength]
    rcases hgl : (sliceSentences ctx).getLast? with _ | last
    · rfl
    · simp only
      by_cases hc : stripLeadingWhitespace last = []
      · rw [if_pos hc, hc]
        simp
      · rw [if_neg hc]
  · have h12 := twelve_le_computeLastSentenceLength ctx
    simp only [computeLastSentenceAnchor]
    refine Prod.ext ?_ rfl
    simp only
    omega

/-- C10: when the draft action is delete or rewrite and both selection
fields are absent or zero, the shared adapter contract's provisional range
anchor `[max(0, 0 - 120), 0]` fails the `to gt 0` constraint, so the call
raises a validation error instead of returning a response. -/
theorem base_provider_zero_cursor_raises (draft : LLMInterventionDraft)
    (context : String) (mode : Mode) (selection_from selection_to : Option Int)
    (n : Nat) (hctx : context ≠ "")
    (ha : draft.action = .delete ∨ draft.action = .rewrite)
    (hsf : selection_from = none ∨ selection_from = some 0)
    (hst : selection_to = none ∨ selection_to = some 0) :
    basePromptGenerate draft context mode selection_from selection_to n =
      .error (.validationError "range anchor requires from ge 0 and to gt 0") := by
  have hcur : pyOrOptInt selection_to (pyOrOptInt selection_from 0) = 0 := by
    rcases hst with h | h <;> rcases hsf with h' | h' <;> simp [h, h', pyOrOptInt]
  have hnp : draft.action ≠ .provoke := by
    rcases ha with h | h <;> simp [h]
  simp only [basePromptGenerate, hcur]
  rw [if_neg hctx, if_neg hnp]
  rfl

/-- C10 witness: a concrete delete draft with absent selections raises the
range-anchor validation error. -/
theorem base_provider_zero_cursor_raises_witness :
    ("x" : String) ≠ "" ∧
    basePromptGenerate ⟨.delete, none⟩ "x" .loki none none 0 =
      .error (.validationError "range anchor requires from ge 0 and to gt 0") :=
  ⟨by decide,
    base_provider_zero_cursor_raises ⟨.delete, none⟩ "x" .loki none none 0
      (by decide) (Or.inl rfl) (Or.inl rfl) (Or.inl rfl)⟩

/-- C5 counterexample: the OpenAI/instructor adapter re-raises a backend
rate-limit exception as a generic `RuntimeError` ("LLM API call failed"),
not as the taxonomy error `quota_exceeded` — the claim that every concrete
adapter maps rate-limit errors onto the stable taxonomy is false. -/
theorem instructor_rate_limit_not_taxonomy :
    instructorCreate .rateLimitError = .error (.runtimeError "LLM API call failed") ∧
    isTaxonomyError (instructorCreate .rateLimitError) = false :=
  ⟨rfl, rfl⟩

/-- C5 (amended): the Anthropic and Gemini adapters translate backend
exceptions onto the stable taxonomy (rate limit → quota_exceeded, auth →
invalid_api_key, API/transport errors → llm_api_error, empty payloads →
invalid_response) while unparseable payloads surface as validation errors;
the OpenAI/instructor adapter instead wraps every backend exception in a
generic RuntimeError carrying no taxonomy code.  In all three adapters a
backend exception is always caught and re-raised as one of these modelled
errors. -/
theorem adapter_error_translation :
    (anthropicComplete .rateLimitError = .error (.providerError "quota_exceeded"
        "Anthropic quota exceeded. Provide another key or try later." 402
        (some "anthropic")) ∧
      anthropicComplete .authenticationError = .error (.providerError "invalid_api_key"
        "Anthropic API key rejected." 401 (some "anthropic")) ∧
      anthropicComplete .apiError = .error (.providerError "llm_api_error"
        "Anthropic API error" 502 (some "anthropic")) ∧
      anthropicComplete .otherException = .error (.providerError "llm_api_error"
        "Anthropic request failed." 502 (some "anthropic")) ∧
      anthropicComplete (.message []) = .error (.providerError "invalid_response"
        "Anthropic returned no text blocks" 502 (some "anthropic")) ∧
      (∀ rest, anthropicComplete (.message (.unparseable :: rest)) =
        .error (.validationError "invalid JSON for LLMInterventionDraft")) ∧
      (∀ d rest, anthropicComplete (.message (.parses d :: rest)) = .ok d)) ∧
    (geminiComplete (.statusError 429) = .error (.providerError "quota_exceeded"
        "Gemini quota exceeded. Provide another key or try later." 402 (some "gemini")) ∧
      geminiComplete (.statusError 401) = .error (.providerError "invalid_api_key"
        "Gemini API key rejected." 401 (some "gemini")) ∧
      geminiComplete (.statusError 403) = .error (.providerError "invalid_api_key"
        "Gemini API key rejected." 401 (some "gemini")) ∧
      geminiComplete (.statusError 500) = .error (.providerError "llm_api_error"
        "Gemini API error." 502 (some "gemini")) ∧
      geminiComplete .transportError = .error (.providerError "llm_api_error"
        "Gemini request failed." 502 (some "gemini")) ∧
      (∀ t, geminiComplete (.body false t) = .error (.providerError "invalid_response"
        "Gemini returned empty candidates" 502 (some "gemini"))) ∧
      geminiComplete (.body true none) = .error (.providerError "invalid_response"
        "Gemini returned no text content" 502 (some "gemini")) ∧
      geminiComplete (.body true (some .unparseable)) =
        .error (.validationError "invalid JSON for LLMInterventionDraft") ∧
      (∀ d, geminiComplete (.body true (some (.parses d))) = .ok d)) ∧
    (instructorCreate .rateLimitError = .error (.runtimeError "LLM API call failed") ∧
      instructorCreate .authenticationError = .error (.runtimeError "LLM API call failed") ∧
      instructorCreate .apiError = .error (.runtimeError "LLM API call failed") ∧
      instructorCreate .otherException = .error (.runtimeError "LLM API call failed") ∧
      instructorCreate .parseFailure = .error (.runtimeError "LLM API call failed") ∧
      (∀ d, instructorCreate (.completion d) = .ok d)) :=
  ⟨⟨rfl, rfl, rfl, rfl, rfl, fun _ => rfl, fun _ _ => rfl⟩,
    ⟨rfl, rfl, rfl, rfl, rfl, fun _ => rfl, rfl, rfl,
      fun _ => rfl⟩,
    ⟨rfl, rfl, rfl, rfl, rfl, fun _ => rfl⟩⟩

theorem getProvider_byok (st : ProviderRegistry) (ov : ProviderOverride) (ab : Bool)
    (p : ProviderName) (key : String)
    (hname : coerceProvider st (overrideNameArg st ov) = .ok p)
    (hp : p ≠ .debug)
    (hkey : normalizeStr ov.api_key = some key) :
    getProvider st (some ov) ab =
      .ok (some ⟨st.next_id, p, key,
          (normalizeStr ov.model).getD (defaultModel st p),
          defaultTemperature st p⟩,
        { st with next_id := st.next_id + 1 }) := by
  simp [getProvider, resolveConfig, Option.getD, hname, hkey, if_neg hp,
    buildProvider, instantiate]

/-- C6: a BYOK override (non-blank API key, non-debug provider) always
builds a fresh provider: the returned instance carries the next allocation
id, the default-instance cache is untouched, the result is never a cached
singleton, and two successive BYOK calls return distinct instances. -/
theorem byok_override_fresh_uncached (st : ProviderRegistry) (ov : ProviderOverride)
    (ab : Bool) (p : ProviderName) (key : String)
    (hname : coerceProvider st (overrideNameArg st ov) = .ok p)
    (hp : p ≠ .debug)
    (hkey : normalizeStr ov.api_key = some key)
    (hinv : st.AllocInv) :
    ∃ inst st',
      getProvider st (some ov) ab = .ok (some inst, st') ∧
      inst.id = st.next_id ∧
      st'.default_instances = st.default_instances ∧
      st'.next_id = st.next_id + 1 ∧
      (∀ q i, lookupByName st.default_instances q = some i → inst ≠ i) ∧
      (∀ ov₂ ab₂ p₂ key₂,
        coerceProvider st' (overrideNameArg st' ov₂) = .ok p₂ → p₂ ≠ .debug →
        normalizeStr ov₂.api_key = some key₂ →
        ∀ inst₂ st₂, getProvider st' (some ov₂) ab₂ = .ok (some inst₂, st₂) →
          inst₂ ≠ inst) := by
  refine ⟨_, _, getProvider_byok st ov ab p key hname hp hkey, rfl, rfl, rfl, ?_, ?_⟩
  · intro q i hqi heq
    have hlt := hinv q i hqi
    rw [← heq] at hlt
    simp at hlt
  · intro ov₂ ab₂ p₂ key₂ hname₂ hp₂ hkey₂ inst₂ st₂ hget₂
    rw [getProvider_byok _ ov₂ ab₂ p₂ key₂ hname₂ hp₂ hkey₂] at hget₂
    injection hget₂ with hget₂
    have h1 := congrArg (fun q => q.1) hget₂
    simp at h1
    intro heq
    rw [heq] at h1
    have := congrArg LLMInstance.id h1
    simp at this

/-- C6 witness: against an empty registry, a BYOK anthropic override
returns the freshly allocated instance and leaves the cache empty. -/
theorem byok_override_fresh_uncached_witness :
    ∃ inst st',
      getProvider
        ⟨false, .openai, [], [], fun _ => none, fun _ => none, 0⟩
        (some ⟨some "anthropic", none, some "sk-test"⟩) false =
        .ok (some inst, st') ∧
      inst.id = 0 ∧
      st'.default_instances = [] ∧
      st'.next_id = 1 ∧
      (∀ q i, lookupByName ([] : List (ProviderName × LLMInstance)) q = some i →
        inst ≠ i) := by
  obtain ⟨inst, st', h1, h2, h3, h4, h5, _⟩ :=
    byok_override_fresh_uncached
      ⟨false, .openai, [], [], fun _ => none, fun _ => none, 0⟩
      ⟨some "anthropic", none, some "sk-test"⟩ false .anthropic "sk-test"
      (by decide) (by decide) (by decide)
      (by intro q i h; simp [lookupByName] at h)
  exact ⟨inst, st', h1, h2, h3, h4, h5⟩

theorem findAssoc_setAssoc_self {α : Type} (es : List (CacheEntry α)) (k : String)
    (v : α) (ex : ℚ) : findAssoc (setAssoc es k v ex) k = some (v, ex) := by
  induction es with
  | nil => simp [setAssoc, findAssoc]
  | cons e rest ih =>
    by_cases h : e.1 = k
    · simp [setAssoc, h, findAssoc]
    · simp only [setAssoc, if_neg h]
      simpa [findAssoc, List.find?_cons, h] using ih

theorem foldl_delAssoc_of_not_mem {α : Type} (ks : List String)
    (e : CacheEntry α) (es : List (CacheEntry α)) (h : ∀ k ∈ ks, k ≠ e.1) :
    ks.foldl (fun acc k => delAssoc acc k) (e :: es) =
      e :: ks.foldl (fun acc k => delAssoc acc k) es := by
  induction ks generalizing es with
  | nil => rfl
  | cons k ks ih =>
    simp only [List.foldl_cons]
    have hk : ¬(e.1 = k) := fun he => h k (List.mem_cons_self k ks) he.symm
    have hdel : delAssoc (e :: es) k = e :: delAssoc es k := by
      simp [delAssoc, List.eraseP_cons, hk]
    rw [hdel]
    exact ih (delAssoc es k) (fun k' hk' => h k' (List.mem_cons_of_mem _ hk'))

theorem foldl_delAssoc_filter {α : Type} (es : List (CacheEntry α))
    (p : CacheEntry α → Bool) (hnd : (es.map (fun e => e.1)).Nodup) :
    ((es.filter p).map (fun e => e.1)).foldl (fun acc k => delAssoc acc k) es =
      es.filter (fun e => !p e) := by
  induction es with
  | nil => rfl
  | cons e rest ih =>
    simp only [List.map_cons, List.nodup_cons] at hnd
    obtain ⟨hmem, hnd'⟩ := hnd
    by_cases hp : p e
    · rw [List.filter_cons_of_pos hp]
      simp only [List.map_cons, List.foldl_cons]
      have hdel : delAssoc (e :: rest) e.1 = rest := by
        simp [delAssoc, List.eraseP_cons]
      rw [hdel, ih hnd', List.filter_cons_of_neg (by simp [hp])]
    · rw [List.filter_cons_of_neg (by simp [hp])]
      have hall : ∀ k ∈ (rest.filter p).map (fun e => e.1), k ≠ e.1 := by
        intro k hk heq
        subst heq
        apply hmem
        obtain ⟨a, ha, hae⟩ := List.mem_map.mp hk
        exact hae ▸ List.mem_map_of_mem _ (List.mem_of_mem_filter ha)
      rw [foldl_delAssoc_of_not_mem _ e rest hall, ih hnd',
        List.filter_cons_of_pos (by simp [hp])]

/-- C7: `set` stores the value with expiry `now + ttl`, overwriting any
prior entry for the key; a `get` at or before that expiry returns the
value, a `get` after it returns `None`; and `cleanup_expired` removes
exactly the entries whose expiry has passed and returns that count.
Each operation reads the clock once: its single `now` argument. -/
theorem idempotency_cache_spec (α : Type) (c : IdempotencyCache α) (k : String)
    (v : α) (t t' : ℚ) :
    (findAssoc (c.set k v t).cache k = some (v, t + c.ttl)) ∧
    (t' ≤ t + c.ttl → ((c.set k v t).get k t').1 = some v) ∧
    (t + c.ttl < t' → ((c.set k v t).get k t').1 = none) ∧
    ((c.cleanup_expired t').1 =
      (c.cache.filter (fun e => decide (e.2.2 < t'))).length) ∧
    (c.KeysNodup →
      (c.cleanup_expired t').2.cache =
        c.cache.filter (fun e => !decide (e.2.2 < t'))) := by
  have hfind : findAssoc (c.set k v t).cache k = some (v, t + c.ttl) :=
    findAssoc_setAssoc_self c.cache k v (t + c.ttl)
  refine ⟨hfind, ?_, ?_, ?_, ?_⟩
  · intro hle
    simp only [IdempotencyCache.get, hfind]
    rw [if_neg (by exact not_lt.mpr hle)]
  · intro hlt
    simp only [IdempotencyCache.get, hfind]
    rw [if_pos hlt]
  · simp [IdempotencyCache.cleanup_expired]
  · intro hnd
    simp only [IdempotencyCache.cleanup_expired]
    exact foldl_delAssoc_filter c.cache (fun e => decide (e.2.2 < t')) hnd

/-- C7 witness: a concrete two-entry cache with `ttl = 15`: a value set at
time 0 is returned at time 10, gone at time 16, and `cleanup_expired` at
time 16 removes exactly the one expired entry. -/
theorem idempotency_cache_spec_witness :
    ((10 : ℚ) ≤ 0 + 15 ∧
      ((((IdempotencyCache.mk 15 [("other", (1 : Nat), (100 : ℚ))]).set "k" 2 0).get
        "k" 10).1 = some 2)) ∧
    ((0 : ℚ) + 15 < 16 ∧
      (((IdempotencyCache.mk 15 [("other", 1, 100)]).set "k" 2 0).get "k" 16).1 =
        none) ∧
    (((IdempotencyCache.mk (15 : ℚ)
        [("other", (1 : Nat), (100 : ℚ)), ("k", 2, 15)]).cleanup_expired 16).1 = 1 ∧
      ((IdempotencyCache.mk (15 : ℚ)
        [("other", (1 : Nat), (100 : ℚ)), ("k", 2, 15)]).cleanup_expired 16).2.cache =
        [("other", 1, 100)]) := by
  refine ⟨⟨by norm_num, ?_⟩, ⟨by norm_num, ?_⟩, ?_, ?_⟩
  · exact (idempotency_cache_spec Nat (IdempotencyCache.mk 15 [("other", 1, 100)])
      "k" 2 0 10).2.1 (by norm_num)
  · exact (idempotency_cache_spec Nat (IdempotencyCache.mk 15 [("other", 1, 100)])
      "k" 2 0 16).2.2.1 (by norm_num)
  · have h := (idempotency_cache_spec Nat
      (IdempotencyCache.mk (15 : ℚ) [("other", 1, 100), ("k", 2, 15)]) "k" 2 0 16).2.2.2.1
    rw [h]
    decide
  · have h := (idempotency_cache_spec Nat
      (IdempotencyCache.mk (15 : ℚ) [("other", 1, 100), ("k", 2, 15)]) "k" 2 0 16).2.2.2.2
      (by simp [IdempotencyCache.KeysNodup])
    rw [h]
    decide

theorem computeLastSentenceAnchor_lt (cursor : Int) (ctx : List Char)
    (h : 0 < cursor) :
    (computeLastSentenceAnchor cursor ctx).1 < (computeLastSentenceAnchor cursor ctx).2 := by
  have h12 := twelve_le_computeLastSentenceLength ctx
  simp only [computeLastSentenceAnchor]
  omega

/-- C8 counterexample: with `selection_from = selection_to = 0` and a raw
rewrite response whose anchor is not a range, the fallback builds the range
`[max(0, 0 - 1), 0] = [0, 0]`, which fails the `to gt 0` constraint: the
call raises a validation error, it does not return a response carrying
that anchor. -/
theorem rewrite_fallback_raises_at_zero :
    generateIntervention ⟨"hello there.", .loki, ⟨1, 0, 0⟩⟩
      ⟨.rewrite, some "x", some "l", .pos 0, "act_1", .loki⟩ 0 =
      .error (.validationError "range anchor requires from ge 0 and to gt 0") ∧
    anchorRangeValidate (max 0 (0 - 1)) 0 =
      .error (.validationError "range anchor requires from ge 0 and to gt 0") :=
  ⟨rfl, rfl⟩

/-- C8 (amended): for a final rewrite action, the cursor is `selection_to`
unless it is zero, else `selection_from`; when the cursor is positive the
last-sentence window always satisfies `start < end` and replaces the
anchor; when no positive cursor exists and the anchor is already a range it
is kept; when no positive cursor exists and the anchor is not a range, the
fallback range `[max(0, selection_from - 1), selection_from] = [0, 0]`
fails range validation, so the call raises a validation error instead of
returning a response. -/
theorem rewrite_anchor_refinement (request : InterventionRequest)
    (response : InterventionResponse) (n : Nat)
    (hsf : 0 ≤ request.client_meta.selection_from)
    (hst : 0 ≤ request.client_meta.selection_to)
    (hrw : response.action = .rewrite) :
    (0 < rewriteCursor request →
      ∃ out, generateIntervention request response n = .ok out ∧
        out.1.action = .rewrite ∧
        out.1.anchor = .range
          (computeLastSentenceAnchor (rewriteCursor request) request.context.data).1
          (computeLastSentenceAnchor (rewriteCursor request) request.context.data).2 ∧
        (computeLastSentenceAnchor (rewriteCursor request) request.context.data).1 <
          (computeLastSentenceAnchor (rewriteCursor request) request.context.data).2) ∧
    (rewriteCursor request ≤ 0 → response.anchor.isRange = true →
      ∃ out, generateIntervention request response n = .ok out ∧
        out.1.anchor = response.anchor) ∧
    (rewriteCursor request ≤ 0 → response.anchor.isRange = false →
      generateIntervention request response n =
        .error (.validationError "range anchor requires from ge 0 and to gt 0")) := by
  have hmg := museGuard_skip_of_ne_delete request { response with source := request.mode } n
    (by simp [hrw])
  have hsg := shortGuard_skip_of_ne_delete request { response with source := request.mode } n
    (by simp [hrw])
  have hact : ({ response with source := request.mode } : InterventionResponse).action =
    .rewrite := by simpa using hrw
  refine ⟨?_, ?_, ?_⟩
  · intro hcur
    set se := computeLastSentenceAnchor (rewriteCursor request) request.context.data with hse
    have hlt := computeLastSentenceAnchor_lt (rewriteCursor request) request.context.data hcur
    rw [← hse] at hlt
    have hse2 : 0 < se.2 := by
      rw [hse]
      simp only [computeLastSentenceAnchor]
      omega
    have hse1 : 0 ≤ se.1 := by
      rw [hse]
      simp only [computeLastSentenceAnchor]
      exact le_max_left _ _
    have hrr : rewriteRefine request { response with source := request.mode } =
        .ok { response with source := request.mode, anchor := Anchor.range se.1 se.2 } := by
      simp only [rewriteRefine, hact, if_pos rfl, ← hse, if_pos hcur, if_pos hlt,
        anchorRangeValidate, if_pos (And.intro hse1 hse2)]
      rw [if_pos hrw]
    refine ⟨ensureIds { response with source := request.mode, anchor := Anchor.range se.1 se.2 } n, by simp [generateIntervention, hmg, hsg, hrr], ?_, ?_, hlt⟩
    · rw [(ensureIds_fields _ n).1]
      simpa using hrw
    · rw [(ensureIds_fields _ n).2.2.1]
  · intro hcur hrange
    have hrr : rewriteRefine request { response with source := request.mode } =
        .ok { response with source := request.mode } := by
      simp only [rewriteRefine, hact, if_pos rfl, if_neg (by omega : ¬(0 < rewriteCursor request))]
      simp [hrange]
    refine ⟨ensureIds { response with source := request.mode } n, by simp [generateIntervention, hmg, hsg, hrr], ?_⟩
    rw [(ensureIds_fields _ n).2.2.1]
  · intro hcur hrange
    have hsf0 : request.client_meta.selection_from = 0 := by
      by_cases h : request.client_meta.selection_to = 0
      · simp only [rewriteCursor, h] at hcur
        simp at hcur
        omega
      · simp only [rewriteCursor, if_pos h] at hcur
        omega
    have hrr : rewriteRefine request { response with source := request.mode } =
        .error (.validationError "range anchor requires from ge 0 and to gt 0") := by
      simp only [rewriteRefine, hact, if_pos rfl,
        if_neg (by omega : ¬(0 < rewriteCursor request))]
      simp only [show ({ response with source := request.mode } :
        InterventionResponse).anchor.isRange = false by simpa using hrange, if_false,
        Bool.false_eq_true, hsf0]
      rw [if_pos hrw]
      rfl
    simp [generateIntervention, hmg, hsg, hrr]

/-- C8 witness: with a positive cursor the service rewrites the anchor to
the computed last-sentence range, and with a zero cursor a range anchor is
kept. -/
theorem rewrite_anchor_refinement_witness :
    (∃ out, generateIntervention ⟨"One. Two words.", .loki, ⟨1, 2, 15⟩⟩
        ⟨.rewrite, some "x", some "l", .range 0 15, "act_1", .loki⟩ 0 = .ok out ∧
      out.1.action = .rewrite ∧
      out.1.anchor = .range
        (computeLastSentenceAnchor 15 "One. Two words.".data).1
        (computeLastSentenceAnchor 15 "One. Two words.".data).2 ∧
      (computeLastSentenceAnchor 15 "One. Two words.".data).1 <
        (computeLastSentenceAnchor 15 "One. Two words.".data).2) ∧
    (∃ out, generateIntervention ⟨"One. Two words.", .loki, ⟨1, 0, 0⟩⟩
        ⟨.rewrite, some "x", some "l", .range 3 9, "act_1", .loki⟩ 0 = .ok out ∧
      out.1.anchor = .range 3 9) := by
  constructor
  · have h := (rewrite_anchor_refinement ⟨"One. Two words.", .loki, ⟨1, 2, 15⟩⟩
      ⟨.rewrite, some "x", some "l", .range 0 15, "act_1", .loki⟩ 0
      (by norm_num) (by norm_num) rfl).1 (by decide)
    simpa using h
  · have h := (rewrite_anchor_refinement ⟨"One. Two words.", .loki, ⟨1, 0, 0⟩⟩
      ⟨.rewrite, some "x", some "l", .range 3 9, "act_1", .loki⟩ 0
      (by norm_num) (by norm_num) rfl).2.1 (by decide) rfl
    simpa using h

end ImpetusCore
